import Mathlib

/-!
Verification of the game-server plugin registry (src/server/server.py).

The server keeps a module-level dict `games` mapping game names to loaded
Python modules, and an optional `current_game` name.  HTTP handlers
`list_games`, `start_game`, `send_message`, `reset_game` read and mutate
this state; `load_game` / `load_all_games` populate the registry and the
watchdog handler `GameReloader.on_modified` reloads on file changes.

The embedding below models:
  - Python values returned by game capabilities (`PyVal`), with the three
    observations the server makes on them: `isinstance(result, str)`,
    `type(result).__name__` and `str(result)`;
  - a game module (`GameModule`) as its two optional capabilities, each
    capability giving the outcome of one invocation (a returned value or a
    raised exception);
  - the server state (`ServerState`): the `games` dict (an insertion-ordered
    association list, as Python dicts are) and `current_game`;
  - JSON response bodies (`Json`) as produced by `jsonify`, paired with the
    HTTP status code;
  - the module (re)load performed by `importlib` as an external outcome
    parameter (`Except PyErr GameModule`), since executing Python source is
    outside the model: `load_game` either stores the constructed module and
    returns `True`, or catches the construction error, logs it and returns
    `False`, exactly as the `try`/`except` in the source does.
-/

set_option autoImplicit false

namespace GameServer

/-- A Python exception as the server observes it: `type(e).__name__`,
`str(e)` and the formatted traceback. -/
structure PyErr where
  etype : String
  emsg : String
  tb : String
deriving DecidableEq

/-- A Python value as returned by a game capability, with just the
observations the server performs: `isinstance(v, str)`, `type(v).__name__`
and `str(v)`. -/
inductive PyVal where
  | vstr (s : String)
  | vint (n : Int)
  | vbool (b : Bool)
  | vnone
deriving DecidableEq

/-- Model of Python `isinstance(v, str)`. -/
def PyVal.isStr : PyVal → Bool
  | .vstr _ => true
  | _ => false

/-- Model of Python `type(v).__name__`. -/
def PyVal.typeName : PyVal → String
  | .vstr _ => "str"
  | .vint _ => "int"
  | .vbool _ => "bool"
  | .vnone => "NoneType"

/-- Model of Python `str(v)`. -/
def PyVal.pyStr : PyVal → String
  | .vstr s => s
  | .vint n => toString n
  | .vbool b => if b then "True" else "False"
  | .vnone => "None"

/-- The outcome of invoking a capability once: it either raises an
exception or returns a value. -/
inductive CallResult where
  | raised (e : PyErr)
  | returned (v : PyVal)

/-- JSON values as produced by `jsonify`. -/
inductive Json where
  | s (v : String)
  | n (v : Int)
  | null
  | arr (l : List Json)
  | obj (l : List (String × Json))

/-- Lookup in a JSON object's field list, first match (models lookup in the
dict produced by JSON deserialization). -/
def jLookup : List (String × Json) → String → Option Json
  | [], _ => none
  | (k, v) :: rest, key => if k = key then some v else jLookup rest key

/-- `jsonify` of an optional string: `None` becomes JSON `null`. -/
def jsonOfOpt : Option String → Json
  | none => .null
  | some s => .s s

/-- Python `type(v).__name__` for a deserialized JSON value (used for the
`AttributeError` raised by `data.get` when the body is not a JSON object). -/
def jsonTypeName : Json → String
  | .s _ => "str"
  | .n _ => "int"
  | .null => "NoneType"
  | .arr _ => "list"
  | .obj _ => "dict"

/-- A loaded game module, i.e. what `games[name]` holds: its `start` and
`message` attributes.  `none` models a missing attribute (`hasattr` false);
`some` gives the outcome of invoking it.  `message` receives the
deserialized JSON value the handler extracted from the request body. -/
structure GameModule where
  start : Option CallResult
  message : Option (Json → CallResult)

/-- The server's module-level mutable state: the `games` dict and
`current_game`. -/
structure ServerState where
  games : List (String × GameModule)
  current_game : Option String

/-- Lookup in a Python dict modelled as an association list. -/
def dictGet : List (String × GameModule) → String → Option GameModule
  | [], _ => none
  | (k, v) :: rest, key => if k = key then some v else dictGet rest key

/-- Python dict assignment `d[k] = v`: update in place if the key exists,
else append (insertion order preserved). -/
def dictSet : List (String × GameModule) → String → GameModule → List (String × GameModule)
  | [], key, v => [(key, v)]
  | (k, v') :: rest, key, v =>
    if k = key then (key, v) :: rest else (k, v') :: dictSet rest key v

/-- Python `list(d.keys())`. -/
def dictKeys (d : List (String × GameModule)) : List String :=
  d.map Prod.fst

/-- `load_game(game_name)`: the import/reload of `games.{game_name}` is an
external outcome.  On success the module is stored in `games` and `True` is
returned; on any exception the error is printed, the state is untouched and
`False` is returned. -/
def load_game (st : ServerState) (game_name : String)
    (outcome : Except PyErr GameModule) : ServerState × Bool :=
  match outcome with
  | .ok m => ({ st with games := dictSet st.games game_name m }, true)
  | .error _ => (st, false)

/-- Python `pathlib.PurePath.stem` on a file name: strip the last suffix,
where a suffix is a dot at index `i` with `0 < i < len - 1`. -/
def fileStem (name : String) : String :=
  let cs := name.toList
  let dotIdxs := (List.range cs.length).filter (fun i => cs.getD i ' ' = '.')
  match dotIdxs.getLast? with
  | some i => if 0 < i ∧ i < cs.length - 1 then String.mk (cs.take i) else name
  | none => name

/-- Python `s.endswith(suffix)`. -/
def endswith (s suffix : String) : Bool :=
  suffix.toList.isSuffixOf s.toList

/-- The final component of a path (`pathlib.PurePath.name`): the characters
after the last path separator. -/
def baseName (p : String) : String :=
  String.mk (p.toList.foldl (fun acc c => if c = '/' then [] else acc ++ [c]) [])

/-- Python `Path(p).stem`: the final path component minus its suffix. -/
def pathStem (p : String) : String :=
  fileStem (baseName p)

/-- `load_all_games()`: iterate over the `*.py` entries of the games
directory (given here as the list of file names the glob produced), load
every one except `__init__.py`.  The construction outcome of each module is
given by `oc`, keyed by the unit name. -/
def load_all_games (st : ServerState) (files : List String)
    (oc : String → Except PyErr GameModule) : ServerState :=
  files.foldl
    (fun acc file =>
      if file ≠ "__init__.py" then (load_game acc (fileStem file) (oc (fileStem file))).1
      else acc)
    st

/-- `GameReloader.on_modified(event)`: if the changed path ends in `.py`,
reload the game named by the path's stem; otherwise do nothing. -/
def GameReloader.on_modified (st : ServerState) (src_path : String)
    (oc : String → Except PyErr GameModule) : ServerState :=
  if endswith src_path ".py" then
    (load_game st (pathStem src_path) (oc (pathStem src_path))).1
  else st

/-- `format_error_message(game_name, function_name, error)`. -/
def format_error_message (game_name function_name : String) (e : PyErr) : Json :=
  .obj [("error", .s ("Error in " ++ game_name ++ "." ++ function_name ++ "()")),
        ("type", .s e.etype),
        ("message", .s e.emsg),
        ("traceback", .s e.tb),
        ("help", .s ("Check games/" ++ game_name ++ ".py - look at the "
                      ++ function_name ++ "() function"))]

/-- `GET /games` (`list_games`): names of the loaded games and the current
game, status 200. -/
def list_games (st : ServerState) : Json × Nat :=
  (.obj [("games", .arr ((dictKeys st.games).map Json.s)),
         ("current_game", jsonOfOpt st.current_game)], 200)

/-- Body of the 404 response for an unknown game name. -/
def notFoundBody (st : ServerState) (game_name : String) : Json :=
  .obj [("error", .s ("Game \x27" ++ game_name ++ "\x27 not found")),
        ("available_games", .arr ((dictKeys st.games).map Json.s))]

/-- `POST /game/<game_name>/start` (`start_game`): returns the new server
state, the JSON body and the status code.  Mirrors the source line by line:
the 404 check, the `hasattr(game_module, 'start')` check, the invocation
(a raised exception is caught by the handler's `except` and formatted),
then `current_game = game_name`, and only after that the
`isinstance(result, str)` validation. -/
def start_game (st : ServerState) (game_name : String) : ServerState × Json × Nat :=
  match dictGet st.games game_name with
  | none => (st, notFoundBody st game_name, 404)
  | some game_module =>
    match game_module.start with
    | none =>
      (st, .obj [("error", .s ("Game \x27" ++ game_name ++ "\x27 is missing start() function")),
                 ("help", .s ("Add a \x27def start():\x27 function to games/"
                               ++ game_name ++ ".py"))], 500)
    | some (.raised e) => (st, format_error_message game_name "start" e, 500)
    | some (.returned result) =>
      let st' := { st with current_game := some game_name }
      if result.isStr then
        (st', .obj [("message", .s result.pyStr), ("game", .s game_name)], 200)
      else
        (st', .obj [("error", .s ("start() must return a string, got " ++ result.typeName)),
                    ("returned_value", .s result.pyStr),
                    ("help", .s ("In games/" ++ game_name
                                  ++ ".py, make sure start() returns a string message"))], 500)

/-- `POST /game/<game_name>/message` (`send_message`).  `data` is the result
of `request.get_json()`: `none` when it yielded `None`, otherwise the
deserialized JSON body.  Mirrors the source: the 404 check, the
`data is None` check (400), `data.get('input', '')` (which raises
`AttributeError` when `data` is not a dict, caught by the handler's
`except`), the `hasattr(game_module, 'message')` check, the invocation, and
the `isinstance(result, str)` validation.  `current_game` is never
touched. -/
def send_message (st : ServerState) (game_name : String) (data : Option Json) :
    ServerState × Json × Nat :=
  match dictGet st.games game_name with
  | none => (st, notFoundBody st game_name, 404)
  | some game_module =>
    match data with
    | none =>
      (st, .obj [("error", .s "No JSON data provided"),
                 ("help", .s "Send a POST request with Content-Type: application/json")], 400)
    | some (.obj fields) =>
      let user_input := (jLookup fields "input").getD (.s "")
      match game_module.message with
      | none =>
        (st, .obj [("error", .s ("Game \x27" ++ game_name ++ "\x27 is missing message() function")),
                   ("help", .s ("Add a \x27def message(user_input):\x27 function to games/"
                                 ++ game_name ++ ".py"))], 500)
      | some call =>
        match call user_input with
        | .raised e => (st, format_error_message game_name "message" e, 500)
        | .returned result =>
          if result.isStr then
            (st, .obj [("message", .s result.pyStr), ("game", .s game_name)], 200)
          else
            (st, .obj [("error", .s ("message() must return a string, got " ++ result.typeName)),
                       ("returned_value", .s result.pyStr),
                       ("help", .s ("In games/" ++ game_name
                                     ++ ".py, make sure message() returns a string message"))], 500)
    | some d =>
      (st, format_error_message game_name "message"
             ⟨"AttributeError",
              "\x27" ++ jsonTypeName d ++ "\x27 object has no attribute \x27get\x27", ""⟩, 500)

/-- `POST /reset` (`reset_game`): clears `current_game` and reports what it
held. -/
def reset_game (st : ServerState) : ServerState × Json × Nat :=
  ({ st with current_game := none },
   .obj [("status", .s "reset"), ("was_playing", jsonOfOpt st.current_game)], 200)

/-- `GET /health`. -/
def health (st : ServerState) : Json × Nat :=
  (.obj [("status", .s "ok"),
         ("games_loaded", .n st.games.length),
         ("current_game", jsonOfOpt st.current_game)], 200)

/-! Concrete modules and states used to instantiate the theorems. -/

/-- A well-behaved module: `start` and `message` both return strings. -/
def demoModule : GameModule :=
  ⟨some (.returned (.vstr "hello")), some (fun _ => .returned (.vstr "ok"))⟩

/-- A module whose `start()` returns the integer `42` instead of a string. -/
def badStartModule : GameModule :=
  ⟨some (.returned (.vint 42)), some (fun _ => .returned (.vstr "ok"))⟩

/-- A module whose `message()` returns the integer `7` instead of a string. -/
def badMessageModule : GameModule :=
  ⟨some (.returned (.vstr "hi")), some (fun _ => .returned (.vint 7))⟩

/-- A module with no `start` attribute. -/
def noStartModule : GameModule :=
  ⟨none, some (fun _ => .returned (.vstr "ok"))⟩

/-- A module with no `message` attribute. -/
def noMessageModule : GameModule :=
  ⟨some (.returned (.vstr "hi")), none⟩

/-- A small registry holding one of each kind of module. -/
def demoGames : List (String × GameModule) :=
  [("g", demoModule), ("bs", badStartModule), ("bm", badMessageModule),
   ("ns", noStartModule), ("nm", noMessageModule)]

/-- A load-outcome environment in which every construction succeeds. -/
def okOc : String → Except PyErr GameModule :=
  fun _ => .ok demoModule

/-- A load-outcome environment in which every construction fails. -/
def failOc : String → Except PyErr GameModule :=
  fun _ => .error ⟨"ImportError", "nope", "tb"⟩

/-! Helper lemmas about the dict model. -/

theorem dictGet_mem_keys {d : List (String × GameModule)} {k : String} {m : GameModule}
    (h : dictGet d k = some m) : k ∈ dictKeys d := by
  induction d with
  | nil => simp [dictGet] at h
  | cons p rest ih =>
    obtain ⟨k', v'⟩ := p
    by_cases hk : k' = k
    · subst hk
      simp [dictKeys]
    · rw [dictGet, if_neg hk] at h
      simp only [dictKeys, List.map_cons, List.mem_cons]
      exact Or.inr (ih h)

theorem dictGet_dictSet_self (d : List (String × GameModule)) (k : String) (m : GameModule) :
    dictGet (dictSet d k m) k = some m := by
  induction d with
  | nil => simp [dictSet, dictGet]
  | cons p rest ih =>
    obtain ⟨k', v'⟩ := p
    by_cases hk : k' = k
    · subst hk
      simp [dictSet, dictGet]
    · rw [dictSet, if_neg hk, dictGet, if_neg hk]
      exact ih

/-! The claims. -/

/-- C4: in every session state, `reset_game` returns exactly the value
`current_game` held immediately before the call (whatever name or `none` it
held, loaded or not), afterwards `current_game` is `none`, and the `games`
registry map is unchanged. -/
theorem c4_reset_session (st : ServerState) :
    reset_game st =
      (⟨st.games, none⟩,
       .obj [("status", .s "reset"), ("was_playing", jsonOfOpt st.current_game)],
       200) := rfl

/-- C5: whenever `start_game st n` succeeds (status 200), the resulting
state has `current_game = some n`, the name `n` is among the registry keys,
and an immediately following `list_games` reports `current_game == n` and
lists `n` among the game names. -/
theorem c5_start_then_list {st st' : ServerState} {n : String} {body : Json}
    (h : start_game st n = (st', body, 200)) :
    st'.current_game = some n ∧ n ∈ dictKeys st'.games ∧
      (list_games st').1 =
        Json.obj [("games", Json.arr ((dictKeys st'.games).map Json.s)),
                  ("current_game", Json.s n)] := by
  cases hg : dictGet st.games n with
  | none => simp [start_game, hg] at h
  | some gm =>
    cases hs : gm.start with
    | none => simp [start_game, hg, hs] at h
    | some cr =>
      cases cr with
      | raised e => simp [start_game, hg, hs] at h
      | returned v =>
        by_cases hv : v.isStr = true
        · simp only [start_game, hg, hs, if_pos hv, Prod.mk.injEq] at h
          obtain ⟨h1, -, -⟩ := h
          subst h1
          exact ⟨rfl, dictGet_mem_keys hg, rfl⟩
        · simp [start_game, hg, hs, hv] at h

/-- Witness for C5 at a concrete loaded module. -/
theorem c5_start_then_list_witness :
    (⟨demoGames, some "g"⟩ : ServerState).current_game = some "g" ∧
      "g" ∈ dictKeys (⟨demoGames, some "g"⟩ : ServerState).games ∧
      (list_games ⟨demoGames, some "g"⟩).1 =
        Json.obj [("games", Json.arr ((dictKeys (⟨demoGames, some "g"⟩ : ServerState).games).map Json.s)),
                  ("current_game", Json.s "g")] :=
  @c5_start_then_list ⟨demoGames, none⟩ ⟨demoGames, some "g"⟩ "g"
    (.obj [("message", .s "hello"), ("game", .s "g")]) rfl

/-- C3 (counterexample): a failed load attempt retains nothing.  Starting
from the empty registry, a failed load of `"g"` leaves the state exactly as
it was and the registry holds no entry for `"g"` at all — in particular no
load status and no retained failure diagnostic, contradicting the claim
that "after a failed load attempt the failure diagnostic is retained in the
entry for later inspection". -/
theorem c3_no_diagnostic_retained :
    load_game ⟨[], none⟩ "g" (.error ⟨"ImportError", "boom", "Traceback"⟩) =
      (⟨[], none⟩, false) ∧
    dictGet (load_game ⟨[], none⟩ "g"
        (.error ⟨"ImportError", "boom", "Traceback"⟩)).1.games "g" = none :=
  ⟨rfl, rfl⟩

/-- C3 (amended): a registry entry's value is just the loaded module — no
load-status tag.  A failed load attempt stores nothing: the state is left
exactly as it was (the failure is only printed, and `load_game` returns
`False`), while a successful load stores the module under the name and
returns `True`. -/
theorem c3_registry_entry_shape :
    (∀ (st : ServerState) (n : String) (e : PyErr),
        load_game st n (.error e) = (st, false)) ∧
    (∀ (st : ServerState) (n : String) (m : GameModule),
        load_game st n (.ok m) = ({ st with games := dictSet st.games n m }, true)) :=
  ⟨fun _ _ _ => rfl, fun _ _ _ => rfl⟩

/-- C1 (code evaluated at the failing input): with `current_game = none`
and a registry holding one module whose `start()` returns the integer `42`,
`start_game` fails with the `WrongReturnType` 500 response — yet the
resulting state has `current_game = some "bs"`: the source assigns
`current_game = game_name` before validating the return type, so this
failure DOES transition the active-unit state, contrary to the claim. -/
theorem c1_wrong_return_type_sets_active :
    start_game ⟨[("bs", badStartModule)], none⟩ "bs" =
      (⟨[("bs", badStartModule)], some "bs"⟩,
       .obj [("error", .s "start() must return a string, got int"),
             ("returned_value", .s "42"),
             ("help", .s "In games/bs.py, make sure start() returns a string message")],
       500) := rfl

/-- C7: when `n` is already present in the registry, a failed reload leaves
the whole state untouched — `n` keeps its previous entry, stays among the
keys, `current_game` is unchanged — and `load_game` returns `False`. -/
theorem c7_failed_reload_preserves_entry (st : ServerState) (n : String) (e : PyErr)
    (h : n ∈ dictKeys st.games) :
    load_game st n (.error e) = (st, false) ∧
    dictGet (load_game st n (.error e)).1.games n = dictGet st.games n ∧
    n ∈ dictKeys (load_game st n (.error e)).1.games ∧
    (load_game st n (.error e)).1.current_game = st.current_game :=
  ⟨rfl, rfl, h, rfl⟩

/-- Witness for C7 at a concrete registry containing the reloaded name. -/
theorem c7_failed_reload_witness :
    load_game ⟨demoGames, some "g"⟩ "g" (.error ⟨"SyntaxError", "bad edit", "tb"⟩) =
      (⟨demoGames, some "g"⟩, false) ∧
    dictGet (load_game ⟨demoGames, some "g"⟩ "g"
        (.error ⟨"SyntaxError", "bad edit", "tb"⟩)).1.games "g" =
      dictGet (⟨demoGames, some "g"⟩ : ServerState).games "g" ∧
    "g" ∈ dictKeys (load_game ⟨demoGames, some "g"⟩ "g"
        (.error ⟨"SyntaxError", "bad edit", "tb"⟩)).1.games ∧
    (load_game ⟨demoGames, some "g"⟩ "g"
        (.error ⟨"SyntaxError", "bad edit", "tb"⟩)).1.current_game =
      (⟨demoGames, some "g"⟩ : ServerState).current_game :=
  c7_failed_reload_preserves_entry ⟨demoGames, some "g"⟩ "g"
    ⟨"SyntaxError", "bad edit", "tb"⟩ (by simp [demoGames, dictKeys])

/-- C2: a capability returning a non-text value yields the 500
`WrongReturnType` response whose body carries the observed type name
(`type(result).__name__`) and the textual rendering `str(result)` of the
bad value; the boundary response is the error object, never the success
shape `{"message": result, "game": name}` — the bad value is not
propagated as if valid. -/
theorem c2_wrong_return_type_diagnostic :
    (∀ (st : ServerState) (n : String) (gm : GameModule) (v : PyVal),
        dictGet st.games n = some gm → gm.start = some (.returned v) → v.isStr = false →
        start_game st n =
          ({ st with current_game := some n },
           .obj [("error", .s ("start() must return a string, got " ++ v.typeName)),
                 ("returned_value", .s v.pyStr),
                 ("help", .s ("In games/" ++ n ++ ".py, make sure start() returns a string message"))],
           500)) ∧
    (∀ (st : ServerState) (n : String) (gm : GameModule) (f : Json → CallResult)
        (fields : List (String × Json)) (v : PyVal),
        dictGet st.games n = some gm → gm.message = some f →
        f ((jLookup fields "input").getD (Json.s "")) = .returned v → v.isStr = false →
        send_message st n (some (.obj fields)) =
          (st,
           .obj [("error", .s ("message() must return a string, got " ++ v.typeName)),
                 ("returned_value", .s v.pyStr),
                 ("help", .s ("In games/" ++ n ++ ".py, make sure message() returns a string message"))],
           500)) := by
  constructor
  · intro st n gm v hg hs hv
    simp [start_game, hg, hs, hv]
  · intro st n gm f fields v hg hm hf hv
    simp [send_message, hg, hm, hf, hv]

/-- Witness for C2 at a module whose `start()` returns `42` and a module
whose `message()` returns `7`. -/
theorem c2_wrong_return_type_witness :
    start_game ⟨demoGames, none⟩ "bs" =
      (⟨demoGames, some "bs"⟩,
       .obj [("error", .s ("start() must return a string, got " ++ (PyVal.vint 42).typeName)),
             ("returned_value", .s (PyVal.vint 42).pyStr),
             ("help", .s ("In games/" ++ "bs" ++ ".py, make sure start() returns a string message"))],
       500) ∧
    send_message ⟨demoGames, none⟩ "bm" (some (.obj [])) =
      (⟨demoGames, none⟩,
       .obj [("error", .s ("message() must return a string, got " ++ (PyVal.vint 7).typeName)),
             ("returned_value", .s (PyVal.vint 7).pyStr),
             ("help", .s ("In games/" ++ "bm" ++ ".py, make sure message() returns a string message"))],
       500) :=
  ⟨c2_wrong_return_type_diagnostic.1 ⟨demoGames, none⟩ "bs" badStartModule
     (.vint 42) rfl rfl rfl,
   c2_wrong_return_type_diagnostic.2 ⟨demoGames, none⟩ "bm" badMessageModule
     (fun _ => .returned (.vint 7)) [] (.vint 7) rfl rfl rfl rfl⟩

/-- C6: a loaded unit lacking the requested capability produces the 500
`MissingCapability` response naming the unit and the capability, the state
is unchanged, and — since the module has no such attribute — no capability
is invoked. -/
theorem c6_missing_capability :
    (∀ (st : ServerState) (n : String) (gm : GameModule),
        dictGet st.games n = some gm → gm.start = none →
        start_game st n =
          (st,
           .obj [("error", .s ("Game \x27" ++ n ++ "\x27 is missing start() function")),
                 ("help", .s ("Add a \x27def start():\x27 function to games/" ++ n ++ ".py"))],
           500)) ∧
    (∀ (st : ServerState) (n : String) (gm : GameModule) (fields : List (String × Json)),
        dictGet st.games n = some gm → gm.message = none →
        send_message st n (some (.obj fields)) =
          (st,
           .obj [("error", .s ("Game \x27" ++ n ++ "\x27 is missing message() function")),
                 ("help", .s ("Add a \x27def message(user_input):\x27 function to games/"
                               ++ n ++ ".py"))],
           500)) := by
  constructor
  · intro st n gm hg hs
    simp [start_game, hg, hs]
  · intro st n gm fields hg hm
    simp [send_message, hg, hm]

/-- Witness for C6 at a module with no `start` and a module with no
`message`. -/
theorem c6_missing_capability_witness :
    start_game ⟨demoGames, none⟩ "ns" =
      (⟨demoGames, none⟩,
       .obj [("error", .s ("Game \x27" ++ "ns" ++ "\x27 is missing start() function")),
             ("help", .s ("Add a \x27def start():\x27 function to games/" ++ "ns" ++ ".py"))],
       500) ∧
    send_message ⟨demoGames, none⟩ "nm" (some (.obj [("input", .s "x")])) =
      (⟨demoGames, none⟩,
       .obj [("error", .s ("Game \x27" ++ "nm" ++ "\x27 is missing message() function")),
             ("help", .s ("Add a \x27def message(user_input):\x27 function to games/"
                           ++ "nm" ++ ".py"))],
       500) :=
  ⟨c6_missing_capability.1 ⟨demoGames, none⟩ "ns" noStartModule rfl rfl,
   c6_missing_capability.2 ⟨demoGames, none⟩ "nm" noMessageModule
     [("input", .s "x")] rfl rfl⟩

/-- C8: discovery loads every entry of the directory listing except the
package initializer `__init__.py` (first conjunct: an `__init__.py` entry
contributes nothing), a failing entry leaves the fold exactly where it was
so all remaining entries are still attempted (second conjunct), and each
non-initializer entry is attempted via `load_game` on its stem (third
conjunct). -/
theorem c8_discovery_isolation :
    (∀ (st : ServerState) (l r : List String) (oc : String → Except PyErr GameModule),
        load_all_games st (l ++ "__init__.py" :: r) oc = load_all_games st (l ++ r) oc) ∧
    (∀ (st : ServerState) (l r : List String) (f : String)
        (oc : String → Except PyErr GameModule) (e : PyErr),
        oc (fileStem f) = .error e →
        load_all_games st (l ++ f :: r) oc = load_all_games st (l ++ r) oc) ∧
    (∀ (st : ServerState) (f : String) (oc : String → Except PyErr GameModule),
        f ≠ "__init__.py" →
        load_all_games st [f] oc = (load_game st (fileStem f) (oc (fileStem f))).1) := by
  refine ⟨?_, ?_, ?_⟩
  · intro st l r oc
    simp [load_all_games, List.foldl_append]
  · intro st l r f oc e he
    simp only [load_all_games, List.foldl_append, List.foldl_cons]
    congr 1
    by_cases hf : f ≠ "__init__.py" <;> simp [hf, load_game, he]
  · intro st f oc hf
    simp [load_all_games, hf]

/-- Witness for C8 on a concrete three-entry directory listing. -/
theorem c8_discovery_isolation_witness :
    load_all_games ⟨[], none⟩ (["number.py"] ++ "__init__.py" :: ["wordle.py"]) okOc =
      load_all_games ⟨[], none⟩ (["number.py"] ++ ["wordle.py"]) okOc ∧
    load_all_games ⟨[], none⟩ (["number.py"] ++ "broken.py" :: ["wordle.py"]) failOc =
      load_all_games ⟨[], none⟩ (["number.py"] ++ ["wordle.py"]) failOc ∧
    load_all_games ⟨[], none⟩ ["number.py"] okOc =
      (load_game ⟨[], none⟩ (fileStem "number.py") (okOc (fileStem "number.py"))).1 :=
  ⟨c8_discovery_isolation.1 ⟨[], none⟩ ["number.py"] ["wordle.py"] okOc,
   c8_discovery_isolation.2.1 ⟨[], none⟩ ["number.py"] ["wordle.py"] "broken.py" failOc
     ⟨"ImportError", "nope", "tb"⟩ rfl,
   c8_discovery_isolation.2.2 ⟨[], none⟩ "number.py" okOc (by decide)⟩

/-- C9: for a loaded game, a request whose `get_json()` yielded `None`
gets the 400 "No JSON data provided" response with the state unchanged —
the response is a constant, independent of the module's `message`
capability, so the capability is not invoked; and when the body is a JSON
object lacking the `"input"` field, the `message` capability is invoked
with the empty string as its input (the handler's result is exactly the
dispatch of `f` applied to `""`). -/
theorem c9_message_body_parsing :
    (∀ (st : ServerState) (n : String) (gm : GameModule),
        dictGet st.games n = some gm →
        send_message st n none =
          (st,
           .obj [("error", .s "No JSON data provided"),
                 ("help", .s "Send a POST request with Content-Type: application/json")],
           400)) ∧
    (∀ (st : ServerState) (n : String) (gm : GameModule) (f : Json → CallResult)
        (fields : List (String × Json)),
        dictGet st.games n = some gm → gm.message = some f →
        jLookup fields "input" = none →
        send_message st n (some (.obj fields)) =
          (match f (Json.s "") with
           | .raised e => (st, format_error_message n "message" e, 500)
           | .returned result =>
             if result.isStr then
               (st, .obj [("message", .s result.pyStr), ("game", .s n)], 200)
             else
               (st,
                .obj [("error", .s ("message() must return a string, got " ++ result.typeName)),
                      ("returned_value", .s result.pyStr),
                      ("help", .s ("In games/" ++ n
                                    ++ ".py, make sure message() returns a string message"))],
                500))) := by
  constructor
  · intro st n gm hg
    simp [send_message, hg]
  · intro st n gm f fields hg hm hl
    cases hr : f (Json.s "") with
    | raised e => simp [send_message, hg, hm, hl, hr]
    | returned v =>
      by_cases hv : v.isStr = true <;> simp [send_message, hg, hm, hl, hr, hv]

/-- Witness for C9: missing body, then an object body without `"input"`. -/
theorem c9_message_body_parsing_witness :
    send_message ⟨demoGames, none⟩ "g" none =
      (⟨demoGames, none⟩,
       .obj [("error", .s "No JSON data provided"),
             ("help", .s "Send a POST request with Content-Type: application/json")],
       400) ∧
    send_message ⟨demoGames, none⟩ "g" (some (.obj [])) =
      (⟨demoGames, none⟩, .obj [("message", .s "ok"), ("game", .s "g")], 200) :=
  ⟨c9_message_body_parsing.1 ⟨demoGames, none⟩ "g" demoModule rfl,
   c9_message_body_parsing.2 ⟨demoGames, none⟩ "g" demoModule
     (fun _ => .returned (.vstr "ok")) [] rfl rfl rfl⟩

/-- C10: the watcher callback reloads on every path ending in `.py` (via
`load_game` on the path's stem) and ignores every other path; in
particular a modification event for `__init__.py` — which startup
discovery skips — reloads and can register a unit named `"__init__"`,
while `load_all_games` on the same entry does nothing. -/
theorem c10_watcher_reload_filter :
    (∀ (st : ServerState) (p : String) (oc : String → Except PyErr GameModule),
        endswith p ".py" = true →
        GameReloader.on_modified st p oc =
          (load_game st (pathStem p) (oc (pathStem p))).1) ∧
    (∀ (st : ServerState) (p : String) (oc : String → Except PyErr GameModule),
        endswith p ".py" = false →
        GameReloader.on_modified st p oc = st) ∧
    (∀ (st : ServerState) (oc : String → Except PyErr GameModule) (m : GameModule),
        oc "__init__" = .ok m →
        dictGet (GameReloader.on_modified st "games/__init__.py" oc).games "__init__" =
          some m) ∧
    (∀ (st : ServerState) (oc : String → Except PyErr GameModule),
        load_all_games st ["__init__.py"] oc = st) := by
  refine ⟨?_, ?_, ?_, ?_⟩
  · intro st p oc hp
    simp [GameReloader.on_modified, hp]
  · intro st p oc hp
    simp [GameReloader.on_modified, hp]
  · intro st oc m hm
    have hend : endswith "games/__init__.py" ".py" = true := by decide
    have hstem : pathStem "games/__init__.py" = "__init__" := by decide
    simp [GameReloader.on_modified, hend, hstem, hm, load_game, dictGet_dictSet_self]
  · intro st oc
    simp [load_all_games]

/-- Witness for C10 at concrete event paths. -/
theorem c10_watcher_reload_filter_witness :
    GameReloader.on_modified ⟨[], none⟩ "games/wordle.py" okOc =
      (load_game ⟨[], none⟩ (pathStem "games/wordle.py") (okOc (pathStem "games/wordle.py"))).1 ∧
    GameReloader.on_modified ⟨[], none⟩ "games/notes.txt" okOc = ⟨[], none⟩ ∧
    dictGet (GameReloader.on_modified ⟨[], none⟩ "games/__init__.py" okOc).games "__init__" =
      some demoModule ∧
    load_all_games ⟨[], none⟩ ["__init__.py"] okOc = ⟨[], none⟩ :=
  ⟨c10_watcher_reload_filter.1 ⟨[], none⟩ "games/wordle.py" okOc (by decide),
   c10_watcher_reload_filter.2.1 ⟨[], none⟩ "games/notes.txt" okOc (by decide),
   c10_watcher_reload_filter.2.2.1 ⟨[], none⟩ okOc demoModule rfl,
   c10_watcher_reload_filter.2.2.2 ⟨[], none⟩ okOc⟩

end GameServer
